import Mathlib

/-!
Verification of the Dataiku DSS ML-task client module (`dataikuapi/dss/ml.py`).

The module is glue code over a remote JSON API: settings builders mutate a
nested JSON-like mapping in place, detail readers project keys out of JSON
payloads, and two polling loops wait on a boolean status flag.  We embed the
JSON data model as association lists with Python dict semantics (unique keys,
insertion order, overwrite-in-place) and translate each method into a pure
state-passing function.  Raising an exception is modelled by returning the
state at the moment of the raise together with the message; note that for
mutating methods the state already mutated before the raise is kept, exactly
as in Python.
-/

set_option maxHeartbeats 1000000

namespace Dataiku

/-- JSON-like values: the data model of the client.  Objects are association
    lists with unique keys in insertion order, mirroring Python dicts; Python
    `None` (JSON null) is `JVal.null`. -/
inductive JVal where
  | null : JVal
  | bool : Bool → JVal
  | num : Int → JVal
  | str : String → JVal
  | arr : List JVal → JVal
  | obj : List (String × JVal) → JVal

/-- A JSON object body: the mapping payloads the client holds. -/
abbrev Dict := List (String × JVal)

/-- Python `d[k]` read on a dict: first (unique) binding for `k`. -/
def dget? : Dict → String → Option JVal
  | [], _ => none
  | (k1, v1) :: rest, k => if k1 = k then some v1 else dget? rest k

/-- Python `d[k] = v`: overwrite in place when the key exists, else append
    (insertion order of Python dicts). -/
def dset : Dict → String → JVal → Dict
  | [], k, v => [(k, v)]
  | (k1, v1) :: rest, k, v =>
    if k1 = k then (k, v) :: rest else (k1, v1) :: dset rest k v

/-- Python `del d[k]`.  On a dict the key is unique, so removing every
    binding coincides with removing the one binding. -/
def ddel (d : Dict) (k : String) : Dict :=
  d.filter (fun p => p.1 != k)

/-- Python `k in d` on a dict. -/
def dhas (d : Dict) (k : String) : Bool :=
  (dget? d k).isSome

/-- Observation helper: read a key under an optional value, when that value
    is an object.  Chains give paths into nested payloads. -/
def jget? : Option JVal → String → Option JVal
  | some (JVal.obj o), k => dget? o k
  | _, _ => none

/-- Python `v[k]` on an arbitrary value: KeyError when absent, TypeError when
    not a dict.  Both are collapsed into an error message. -/
def pyGet (v : JVal) (k : String) : Except String JVal :=
  match v with
  | JVal.obj o =>
    match dget? o k with
    | some x => Except.ok x
    | none => Except.error ("KeyError: " ++ k)
  | _ => Except.error "TypeError: value is not a dict"

/-- Python `v.get(k, d)` on an arbitrary value: AttributeError when the
    receiver is not a dict, else the binding or the default. -/
def pyGetD (v : JVal) (k : String) (dflt : JVal) : Except String JVal :=
  match v with
  | JVal.obj o => Except.ok ((dget? o k).getD dflt)
  | _ => Except.error "AttributeError: value is not a dict"

/-- Python `x == s` for a string literal `s`: true exactly on the equal
    string value (values of other types never equal a string). -/
def pyStrEq (v : JVal) (s : String) : Bool :=
  match v with
  | JVal.str t => t = s
  | _ => false

/-- Python `x == False`: true on the boolean false and on the number 0
    (Python numeric/boolean cross-equality). -/
def pyEqFalse (v : JVal) : Bool :=
  match v with
  | JVal.bool b => !b
  | JVal.num n => n = 0
  | _ => false

/-- Python `x is None`. -/
def jIsNull (v : JVal) : Bool :=
  match v with
  | JVal.null => true
  | _ => false

/-- Embedding of `DSSTrainedPredictionModelDetails.get_roc_curve_data`:
    `roc = details.get("perf", {}).get("rocVizData", {})`, then a ValueError
    when `roc is None`, else `roc` returned unchanged. -/
def get_roc_curve_data (details : JVal) : Except String JVal :=
  match pyGetD details "perf" (JVal.obj []) with
  | Except.error e => Except.error e
  | Except.ok perf =>
    match pyGetD perf "rocVizData" (JVal.obj []) with
    | Except.error e => Except.error e
    | Except.ok roc =>
      if jIsNull roc then
        Except.error "This model does not have ROC visualization data"
      else
        Except.ok roc

/-- Builds an explicit-split record the way `set_split_explicit` mutates its
    `train_split` / `test_split` dicts: starting from a base record, the
    selection (already built: a raw mapping or the result of a builder's
    `build()`) is stored under `selection` when given, then the filter under
    `filter` when given. -/
def buildSplitRecord (base : Dict) (sel fil : Option JVal) : Dict :=
  let r1 := match sel with
    | some s => dset base "selection" s
    | none => base
  match fil with
  | some f => dset r1 "filter" f
  | none => r1

/-- Embedding of `PredictionSplitParamsHandler.set_split_explicit`.  The
    Python method looks up `settings["splitParams"]` (a reference `sp`),
    raises when `dataset_name` is None, then writes `ttPolicy` and either the
    `efsd*` (single dataset) or `eftd*` (two datasets) keys into `sp`; the
    train/test records are stored in `sp` and then mutated in place with the
    selections and filters, so the final state holds the full records.
    Returns the post state and the raised message, if any. -/
def set_split_explicit (settings : Dict) (train_selection test_selection : Option JVal)
    (dataset_name test_dataset_name : Option String)
    (train_filter test_filter : Option JVal) : Dict × Option String :=
  match dget? settings "splitParams" with
  | some (JVal.obj sp) =>
    match dataset_name with
    | none => (settings, some "For explicit splitting a dataset_name is mandatory")
    | some dn =>
      let single : Dict × Option String :=
        let train_split := buildSplitRecord [] train_selection train_filter
        let test_split := buildSplitRecord [] test_selection test_filter
        let sp1 := dset sp "ttPolicy" (JVal.str "EXPLICIT_FILTERING_SINGLE_DATASET")
        let sp2 := dset sp1 "efsdDatasetSmartName" (JVal.str dn)
        let sp3 := dset sp2 "efsdTrain" (JVal.obj train_split)
        let sp4 := dset sp3 "efsdTest" (JVal.obj test_split)
        (dset settings "splitParams" (JVal.obj sp4), none)
      match test_dataset_name with
      | none => single
      | some tdn =>
        if tdn = dn then single
        else
          let train_split := buildSplitRecord [("datasetSmartName", JVal.str dn)]
            train_selection train_filter
          let test_split := buildSplitRecord [("datasetSmartName", JVal.str tdn)]
            test_selection test_filter
          let sp1 := dset sp "ttPolicy" (JVal.str "EXPLICIT_FILTERING_TWO_DATASETS")
          let sp2 := dset sp1 "eftdTrain" (JVal.obj train_split)
          let sp3 := dset sp2 "eftdTest" (JVal.obj test_split)
          (dset settings "splitParams" (JVal.obj sp3), none)
  | some _ => (settings, some "TypeError: splitParams is not a dict")
  | none => (settings, some "KeyError: splitParams")

/-- Python `None`-or-string argument turned into the stored JSON value. -/
def optStr : Option String → JVal
  | some s => JVal.str s
  | none => JVal.null

/-- Embedding of `DSSMLTaskSettings.set_metric`: raises when both `metric`
    and `custom_metric` are None, else writes the four fields
    `evaluationMetric`, `customEvaluationMetricCode`,
    `customEvaluationMetricGIB`, `customEvaluationMetricNeedsProba` into
    `settings["modeling"]["metrics"]`, with `evaluationMetric` being the
    metric when no custom metric is given and the literal CUSTOM otherwise. -/
def set_metric (settings : Dict) (metric custom_metric : Option String)
    (custom_metric_greater_is_better custom_metric_use_probas : Bool) :
    Dict × Option String :=
  if custom_metric = none ∧ metric = none then
    (settings, some "Either metric or custom_metric must be defined")
  else
    match dget? settings "modeling" with
    | some (JVal.obj mo) =>
      match dget? mo "metrics" with
      | some (JVal.obj me) =>
        let ev : JVal :=
          match custom_metric with
          | none => optStr metric
          | some _ => JVal.str "CUSTOM"
        let me1 := dset me "evaluationMetric" ev
        let me2 := dset me1 "customEvaluationMetricCode" (optStr custom_metric)
        let me3 := dset me2 "customEvaluationMetricGIB"
          (JVal.bool custom_metric_greater_is_better)
        let me4 := dset me3 "customEvaluationMetricNeedsProba"
          (JVal.bool custom_metric_use_probas)
        (dset settings "modeling" (JVal.obj (dset mo "metrics" (JVal.obj me4))), none)
      | some _ => (settings, some "TypeError: metrics is not a dict")
      | none => (settings, some "KeyError: metrics")
    | some _ => (settings, some "TypeError: modeling is not a dict")
    | none => (settings, some "KeyError: modeling")

/-- The loop body of `DSSMLTaskSettings.foreach_feature`: iterate the
    `per_feature` items in order, `continue` on the feature whose `role` is
    TARGET, `continue` on features whose `type` differs from the filter when
    one is given, and otherwise bind `fn(name, deepcopy(params))` in the new
    mapping (deepcopy is the identity on values).  Indexing a missing `role`
    or `type` raises, aborting the build. -/
def buildNewPerFeature (fn : String → JVal → JVal) (only_of_type : Option String) :
    Dict → Except String Dict
  | [] => Except.ok []
  | (k, v) :: rest =>
    match pyGet v "role" with
    | Except.error e => Except.error e
    | Except.ok role =>
      if pyStrEq role "TARGET" then
        buildNewPerFeature fn only_of_type rest
      else
        match only_of_type with
        | some t =>
          match pyGet v "type" with
          | Except.error e => Except.error e
          | Except.ok ty =>
            if pyStrEq ty t then
              (buildNewPerFeature fn only_of_type rest).map (fun r => (k, fn k v) :: r)
            else
              buildNewPerFeature fn only_of_type rest
        | none =>
          (buildNewPerFeature fn only_of_type rest).map (fun r => (k, fn k v) :: r)

/-- Embedding of `DSSMLTaskSettings.foreach_feature`: build the new
    `per_feature` mapping from the old one and assign it wholesale to
    `settings["preprocessing"]["per_feature"]`.  When the build raises, the
    assignment never happens and the settings are unchanged. -/
def foreach_feature (settings : Dict) (fn : String → JVal → JVal)
    (only_of_type : Option String) : Dict × Option String :=
  match dget? settings "preprocessing" with
  | some (JVal.obj pre) =>
    match dget? pre "per_feature" with
    | some (JVal.obj pf) =>
      match buildNewPerFeature fn only_of_type pf with
      | Except.error e => (settings, some e)
      | Except.ok pf2 =>
        (dset settings "preprocessing" (JVal.obj (dset pre "per_feature" (JVal.obj pf2))), none)
    | some _ => (settings, some "TypeError: per_feature is not a dict")
    | none => (settings, some "KeyError: per_feature")
  | some _ => (settings, some "TypeError: preprocessing is not a dict")
  | none => (settings, some "KeyError: preprocessing")

/-- The loop of `remove_sample_weighting`: for each feature in order, read
    its `role` (raising on a missing key or non-dict value, with the features
    already visited kept mutated and the rest untouched) and flip WEIGHT to
    INPUT. -/
def resetWeightRoles : Dict → Dict × Option String
  | [] => ([], none)
  | (k, v) :: rest =>
    match v with
    | JVal.obj o =>
      match dget? o "role" with
      | some r =>
        let v2 := if pyStrEq r "WEIGHT" then JVal.obj (dset o "role" (JVal.str "INPUT")) else v
        let (rest2, e) := resetWeightRoles rest
        ((k, v2) :: rest2, e)
      | none => ((k, v) :: rest, some "KeyError: role")
    | _ => ((k, v) :: rest, some "TypeError: feature params are not a dict")

/-- Embedding of `DSSMLTaskSettings.remove_sample_weighting`: set
    `weight.weightMethod` to NO_WEIGHTING, then flip every feature role
    WEIGHT back to INPUT.  The weight write happens first, so it is kept even
    when the loop raises. -/
def remove_sample_weighting (settings : Dict) : Dict × Option String :=
  match dget? settings "weight" with
  | some (JVal.obj w) =>
    let s1 := dset settings "weight" (JVal.obj (dset w "weightMethod" (JVal.str "NO_WEIGHTING")))
    match dget? s1 "preprocessing" with
    | some (JVal.obj pre) =>
      match dget? pre "per_feature" with
      | some (JVal.obj pf) =>
        let r := resetWeightRoles pf
        (dset s1 "preprocessing" (JVal.obj (dset pre "per_feature" (JVal.obj r.1))), r.2)
      | some _ => (s1, some "TypeError: per_feature is not a dict")
      | none => (s1, some "KeyError: per_feature")
    | some _ => (s1, some "TypeError: preprocessing is not a dict")
    | none => (s1, some "KeyError: preprocessing")
  | some _ => (settings, some "TypeError: weight is not a dict")
  | none => (settings, some "KeyError: weight")

/-- Embedding of `DSSMLTaskSettings.use_sample_weighting`: first run
    `remove_sample_weighting` (its mutations are kept in every outcome), then
    raise a ValueError when the feature is absent from `per_feature`, else
    write `weight.weightMethod = SAMPLE_WEIGHT`,
    `weight.sampleWeightVariable = feature_name` and the feature role to
    WEIGHT, in that order. -/
def use_sample_weighting (settings : Dict) (feature_name : String) : Dict × Option String :=
  let r0 := remove_sample_weighting settings
  match r0.2 with
  | some e => (r0.1, some e)
  | none =>
    let s1 := r0.1
    match dget? s1 "preprocessing" with
    | some (JVal.obj pre) =>
      match dget? pre "per_feature" with
      | some (JVal.obj pf) =>
        if dhas pf feature_name then
          match dget? s1 "weight" with
          | some (JVal.obj w) =>
            let w2 := dset (dset w "weightMethod" (JVal.str "SAMPLE_WEIGHT"))
              "sampleWeightVariable" (JVal.str feature_name)
            let s2 := dset s1 "weight" (JVal.obj w2)
            match dget? pf feature_name with
            | some (JVal.obj fv) =>
              (dset s2 "preprocessing" (JVal.obj (dset pre "per_feature"
                (JVal.obj (dset pf feature_name (JVal.obj (dset fv "role" (JVal.str "WEIGHT"))))))), none)
            | some _ => (s2, some "TypeError: feature params are not a dict")
            | none => (s2, some "KeyError")
          | some _ => (s1, some "TypeError: weight is not a dict")
          | none => (s1, some "KeyError: weight")
        else
          (s1, some "ValueError: feature does not exist in this ML task, cannot use as weight")
      | some _ => (s1, some "TypeError: per_feature is not a dict")
      | none => (s1, some "KeyError: per_feature")
    | some _ => (s1, some "TypeError: preprocessing is not a dict")
    | none => (s1, some "KeyError: preprocessing")

/-- The fixed name-remap table of `DSSPredictionMLTaskSettings`. -/
def predictionAlgorithmRemap : List (String × String) :=
  [("SVC_CLASSIFICATION", "svc_classifier"),
   ("SGD_CLASSIFICATION", "sgd_classifier"),
   ("SPARKLING_DEEP_LEARNING", "deep_learning_sparkling"),
   ("SPARKLING_GBM", "gbm_sparkling"),
   ("SPARKLING_RF", "rf_sparkling"),
   ("SPARKLING_GLM", "glm_sparkling"),
   ("SPARKLING_NB", "nb_sparkling"),
   ("XGBOOST_CLASSIFICATION", "xgboost"),
   ("XGBOOST_REGRESSION", "xgboost"),
   ("MLLIB_LOGISTIC_REGRESSION", "mllib_logit"),
   ("MLLIB_LINEAR_REGRESSION", "mllib_linreg"),
   ("MLLIB_RANDOM_FOREST", "mllib_rf")]

/-- The fixed name-remap table of `DSSClusteringMLTaskSettings`. -/
def clusteringAlgorithmRemap : List (String × String) :=
  [("DBSCAN", "db_scan_clustering")]

/-- Python `name.lower()` on the ASCII algorithm names used here. -/
def pyLower (s : String) : String := String.mk (s.data.map Char.toLower)

/-- Lookup in a remap table (Python `name in remap` then `remap[name]`). -/
def remapLookup : List (String × String) → String → Option String
  | [], _ => none
  | (k1, v1) :: rest, k => if k1 = k then some v1 else remapLookup rest k

/-- Embedding of `DSSMLTaskSettings.get_algorithm_settings`, parametrised by
    the task-type remap table: remap the name when it is a key of the table,
    then index `settings["modeling"]` at the lowercased name. -/
def get_algorithm_settings (remap : List (String × String)) (settings : Dict)
    (algorithm_name : String) : Except String JVal :=
  let resolved := match remapLookup remap algorithm_name with
    | some r => r
    | none => algorithm_name
  match pyGet (JVal.obj settings) "modeling" with
  | Except.error e => Except.error e
  | Except.ok m => pyGet m (pyLower resolved)

/-- Embedding of `DSSMLTaskSettings.set_algorithm_enabled`: fetch the
    algorithm settings entry (a reference into `modeling`) and set its
    `enabled` field. -/
def set_algorithm_enabled (remap : List (String × String)) (settings : Dict)
    (algorithm_name : String) (enabled : Bool) : Dict × Option String :=
  let resolved := match remapLookup remap algorithm_name with
    | some r => r
    | none => algorithm_name
  match dget? settings "modeling" with
  | some (JVal.obj m) =>
    match dget? m (pyLower resolved) with
    | some (JVal.obj entry) =>
      (dset settings "modeling"
        (JVal.obj (dset m (pyLower resolved) (JVal.obj (dset entry "enabled" (JVal.bool enabled))))),
       none)
    | some _ => (settings, some "TypeError: algorithm settings are not a dict")
    | none => (settings, some ("KeyError: " ++ (pyLower resolved)))
  | some _ => (settings, some "TypeError: modeling is not a dict")
  | none => (settings, some "KeyError: modeling")

/-- The bookkeeping keys stripped by the prediction variant of
    `get_performance_metrics`. -/
def predictionPerfDroppedKeys : List String :=
  ["gridsearchData", "trainDate", "topImportance", "backendType", "userMeta",
   "sessionDate", "trainInfo", "fullModelId", "gridLength", "algorithm", "sessionId"]

/-- The bookkeeping keys stripped by the clustering variant of
    `get_performance_metrics`. -/
def clusteringPerfDroppedKeys : List String :=
  ["fullModelId", "algorithm", "trainInfo", "userMeta", "backendType",
   "sessionId", "sessionDate", "facts"]

/-- The deletion loop of both `get_performance_metrics` variants:
    `for x in keys: if x in d: del d[x]`. -/
def removeKeys (d : Dict) : List String → Dict
  | [] => d
  | k :: ks => removeKeys (if dhas d k then ddel d k else d) ks

/-- Embedding of `DSSTrainedPredictionModelDetails.get_performance_metrics`:
    deep-copy the stored snippet, delete the bookkeeping keys on the copy,
    return the copy.  The result pairs the wrapper state (its stored
    snippet) after the call with the returned mapping. -/
def prediction_get_performance_metrics (snippet : Dict) : Dict × Dict :=
  let clean_snippet := snippet
  (snippet, removeKeys clean_snippet predictionPerfDroppedKeys)

/-- Embedding of `DSSTrainedClusteringModelDetails.get_performance_metrics`,
    identical but for its key list. -/
def clustering_get_performance_metrics (snippet : Dict) : Dict × Dict :=
  let clean_snippet := snippet
  (snippet, removeKeys clean_snippet clusteringPerfDroppedKeys)

/-- The remote transport seen by `DSSMLTask`, as response functions: the
    status payload, the per-model details payload, and the models-snippets
    payload as a function of the request body built by
    `get_trained_model_snippet`. -/
structure MLClient where
  statusResp : JVal
  modelDetailsResp : String → JVal
  modelsSnippetsResp : JVal → JVal

/-- Embedding of `DSSMLTask.get_trained_model_snippet`: build the request
    body from the `id` / `ids` arguments, fetch, and index the response at
    `id` when a single id was asked. -/
def get_trained_model_snippet (c : MLClient) (id : Option String)
    (ids : Option (List JVal)) : Except String JVal :=
  let body : JVal :=
    match id with
    | some i => JVal.obj [("modelsIds", JVal.arr [JVal.str i])]
    | none =>
      match ids with
      | some l => JVal.obj [("modelsIds", JVal.arr l)]
      | none => JVal.obj []
  let ret := c.modelsSnippetsResp body
  match id with
  | some i => pyGet ret i
  | none => Except.ok ret

/-- The two detail wrappers `get_trained_model_details` can build, each
    holding the fetched details and the snippet. -/
inductive TrainedModelDetails where
  | clustering (details : JVal) (snippet : JVal)
  | prediction (details : JVal) (snippet : JVal)

/-- Embedding of `DSSMLTask.get_trained_model_details`: fetch the details,
    fetch the snippet for the same id, and build a clustering wrapper when
    the details response contains the key `facts`, else a prediction
    wrapper. -/
def get_trained_model_details (c : MLClient) (id : String) :
    Except String TrainedModelDetails :=
  let ret := c.modelDetailsResp id
  match get_trained_model_snippet c (some id) none with
  | Except.error e => Except.error e
  | Except.ok snippet =>
    match ret with
    | JVal.obj o =>
      if dhas o "facts" then
        Except.ok (TrainedModelDetails.clustering ret snippet)
      else
        Except.ok (TrainedModelDetails.prediction ret snippet)
    | _ => Except.error "TypeError: details response is not a dict"

/-- The algorithm-filtering comprehension of `get_trained_models_ids`:
    iterate the snippets response items and keep the ids whose snippet has
    `algorithm` (defaulting to the empty string) equal to the filter. -/
def filterIdsByAlgorithm (alg : String) : Dict → Except String (List JVal)
  | [] => Except.ok []
  | (k, s) :: rest =>
    match pyGetD s "algorithm" (JVal.str "") with
    | Except.error e => Except.error e
    | Except.ok a =>
      match filterIdsByAlgorithm alg rest with
      | Except.error e => Except.error e
      | Except.ok r =>
        Except.ok (if pyStrEq a alg then JVal.str k :: r else r)

/-- The session-filtering comprehension of `get_trained_models_ids`:
    keep the entries whose `fullModelId.sessionId` (each level read with a
    default) equals the filter. -/
def filterBySession (sid : String) : List JVal → Except String (List JVal)
  | [] => Except.ok []
  | fmi :: rest =>
    match pyGetD fmi "fullModelId" (JVal.obj []) with
    | Except.error e => Except.error e
    | Except.ok x =>
      match pyGetD x "sessionId" (JVal.str "") with
      | Except.error e => Except.error e
      | Except.ok y =>
        match filterBySession sid rest with
        | Except.error e => Except.error e
        | Except.ok r =>
          Except.ok (if pyStrEq y sid then fmi :: r else r)

/-- The id-projection comprehension `[x["id"] for x in full_model_ids]`. -/
def projectIds : List JVal → Except String (List JVal)
  | [] => Except.ok []
  | x :: rest =>
    match pyGet x "id" with
    | Except.error e => Except.error e
    | Except.ok i =>
      match projectIds rest with
      | Except.error e => Except.error e
      | Except.ok r => Except.ok (i :: r)

/-- Embedding of `DSSMLTask.get_trained_models_ids`: read
    `status["fullModelIds"]`, filter by session when asked, project the ids,
    and when an algorithm filter is given fetch the snippets for those ids
    and keep the response keys whose snippet matches the algorithm. -/
def get_trained_models_ids (c : MLClient) (session_id algorithm : Option String) :
    Except String (List JVal) :=
  match pyGet c.statusResp "fullModelIds" with
  | Except.error e => Except.error e
  | Except.ok fmisv =>
    match fmisv with
    | JVal.arr fmis =>
      let filtered : Except String (List JVal) :=
        match session_id with
        | none => Except.ok fmis
        | some sid => filterBySession sid fmis
      match filtered with
      | Except.error e => Except.error e
      | Except.ok fmis2 =>
        match projectIds fmis2 with
        | Except.error e => Except.error e
        | Except.ok model_ids =>
          match algorithm with
          | none => Except.ok model_ids
          | some alg =>
            match get_trained_model_snippet c none (some model_ids) with
            | Except.error e => Except.error e
            | Except.ok ret =>
              match ret with
              | JVal.obj entries => filterIdsByAlgorithm alg entries
              | _ => Except.error "TypeError: snippets response is not a dict"
    | _ => Except.error "TypeError: fullModelIds is not a list"

/-- The polling loop shared by `wait_guess_complete` and
    `wait_train_complete`: fetch the i-th status, return when
    `status.get(field, "???") == False`, else sleep the fixed interval and
    loop.  The fuel bounds the number of fetches we observe; the result is
    `none` when the loop has not returned within that many fetches, and
    otherwise the number of fetches performed together with the total time
    slept.  Each fetched status is a parsed JSON object. -/
def waitLoop (field : String) (interval : ℚ) (statuses : Nat → Dict) :
    Nat → Nat → Option (Nat × ℚ)
  | 0, _ => none
  | fuel + 1, i =>
    let status := statuses i
    if pyEqFalse ((dget? status field).getD (JVal.str "???")) then
      some (i + 1, interval * i)
    else
      waitLoop field interval statuses fuel (i + 1)

/-- Embedding of `DSSMLTask.wait_train_complete`: poll `training` with a 2
    second sleep. -/
def wait_train_complete (statuses : Nat → Dict) (fuel : Nat) : Option (Nat × ℚ) :=
  waitLoop "training" 2 statuses fuel 0

/-- Embedding of `DSSMLTask.wait_guess_complete`: poll `guessing` with a 0.2
    second sleep. -/
def wait_guess_complete (statuses : Nat → Dict) (fuel : Nat) : Option (Nat × ℚ) :=
  waitLoop "guessing" (1 / 5) statuses fuel 0

/-- A well-formed entry of the status's `fullModelIds` list: an `id` and a
    nested `fullModelId.sessionId`, as read by `get_trained_models_ids`. -/
def mkFullModelEntry (id sid : String) : JVal :=
  JVal.obj [("id", JVal.str id), ("fullModelId", JVal.obj [("sessionId", JVal.str sid)])]

/-- A status payload whose `fullModelIds` holds the given (id, sessionId)
    entries. -/
def mkStatus (entries : List (String × String)) : JVal :=
  JVal.obj [("fullModelIds", JVal.arr (entries.map (fun p => mkFullModelEntry p.1 p.2)))]

/-- A models-snippets response body: each model id mapped to a snippet
    carrying its `algorithm`. -/
def mkSnippets (snips : List (String × String)) : Dict :=
  snips.map (fun p => (p.1, JVal.obj [("algorithm", JVal.str p.2)]))

/-- The effect of one `remove_sample_weighting` loop iteration on a feature
    record: a WEIGHT role becomes INPUT, everything else is untouched. -/
def flipWeightRoleObj (o : Dict) : Dict :=
  match dget? o "role" with
  | some r => if pyStrEq r "WEIGHT" then dset o "role" (JVal.str "INPUT") else o
  | none => o

/-- `flipWeightRoleObj` lifted to feature values. -/
def flipWeightRole : JVal → JVal
  | JVal.obj o => JVal.obj (flipWeightRoleObj o)
  | v => v

/-! ## Theorems -/

theorem dget?_dset_self (d : Dict) (k : String) (v : JVal) :
    dget? (dset d k v) k = some v := by
  induction d with
  | nil => simp [dset, dget?]
  | cons p rest ih =>
    obtain ⟨k1, v1⟩ := p
    by_cases h : k1 = k
    · simp [dset, dget?, h]
    · simp [dset, dget?, h, ih]

theorem dget?_dset_ne (d : Dict) (k k2 : String) (v : JVal) (h : k2 ≠ k) :
    dget? (dset d k v) k2 = dget? d k2 := by
  have h2 : ¬ (k = k2) := fun hk => h hk.symm
  induction d with
  | nil => simp [dset, dget?, h2]
  | cons p rest ih =>
    obtain ⟨k1, v1⟩ := p
    by_cases hk : k1 = k
    · subst hk
      simp [dset, dget?, h2]
    · simp [dset, dget?, hk, ih]

theorem dget?_ddel_self (d : Dict) (k : String) :
    dget? (ddel d k) k = none := by
  induction d with
  | nil => simp [ddel, dget?]
  | cons p rest ih =>
    obtain ⟨k1, v1⟩ := p
    by_cases h : k1 = k
    · simpa [ddel, List.filter_cons, bne_iff_ne, h] using ih
    · simpa [ddel, List.filter_cons, bne_iff_ne, h, dget?] using ih

theorem dget?_ddel_ne (d : Dict) (k k2 : String) (h : k2 ≠ k) :
    dget? (ddel d k) k2 = dget? d k2 := by
  have h2 : ¬ (k = k2) := fun hk => h hk.symm
  induction d with
  | nil => simp [ddel, dget?]
  | cons p rest ih =>
    obtain ⟨k1, v1⟩ := p
    by_cases hk : k1 = k
    · subst hk
      simpa [ddel, List.filter_cons, bne_iff_ne, dget?, h2] using ih
    · simp only [ddel] at ih
      simp [ddel, List.filter_cons, bne_iff_ne, dget?, hk, ih]

theorem ddel_of_not_has (d : Dict) (k : String) (h : dhas d k = false) :
    ddel d k = d := by
  induction d with
  | nil => simp [ddel]
  | cons p rest ih =>
    obtain ⟨k1, v1⟩ := p
    by_cases hk : k1 = k
    · simp [dhas, dget?, hk] at h
    · have hrest : dhas rest k = false := by
        simpa [dhas, dget?, hk] using h
      have hr := ih hrest
      simp [ddel, List.filter_cons, bne_iff_ne, hk]
      simpa [ddel] using hr

theorem removeKeys_step (d : Dict) (k : String) :
    (if dhas d k then ddel d k else d) = ddel d k := by
  by_cases h : dhas d k
  · simp [h]
  · simp [h, ddel_of_not_has d k (by simpa using h)]

theorem dget?_removeKeys (ks : List String) (d : Dict) (k : String) :
    dget? (removeKeys d ks) k = if k ∈ ks then none else dget? d k := by
  induction ks generalizing d with
  | nil => simp [removeKeys]
  | cons k1 ks ih =>
    rw [removeKeys, removeKeys_step, ih]
    by_cases hmem : k ∈ ks
    · simp [hmem]
    · by_cases hk : k = k1
      · simp [hmem, hk, dget?_ddel_self]
      · simp [hmem, hk, dget?_ddel_ne d k1 k hk]

/-- C3 (corrected): `get_roc_curve_data` reads `perf.rocVizData` with an
    empty-mapping default at each level; it raises the validation error
    exactly when the key `rocVizData` is present in `perf` with value null,
    returns the empty-mapping default when `perf` or `perf.rocVizData` is
    absent, and otherwise returns the stored data unchanged. -/
theorem get_roc_curve_data_spec (det : Dict) :
    (dget? det "perf" = none → get_roc_curve_data (JVal.obj det) = Except.ok (JVal.obj [])) ∧
    (∀ perf : Dict, dget? det "perf" = some (JVal.obj perf) →
      (dget? perf "rocVizData" = some JVal.null →
        get_roc_curve_data (JVal.obj det) =
          Except.error "This model does not have ROC visualization data") ∧
      (dget? perf "rocVizData" = none →
        get_roc_curve_data (JVal.obj det) = Except.ok (JVal.obj [])) ∧
      (∀ v, dget? perf "rocVizData" = some v → jIsNull v = false →
        get_roc_curve_data (JVal.obj det) = Except.ok v)) := by
  constructor
  · intro h
    simp [get_roc_curve_data, pyGetD, dget?, h, jIsNull]
  · intro perf hperf
    refine ⟨?_, ?_, ?_⟩
    · intro h
      simp [get_roc_curve_data, pyGetD, dget?, hperf, h, jIsNull]
    · intro h
      simp [get_roc_curve_data, pyGetD, dget?, hperf, h, jIsNull]
    · intro v hv hnv
      simp [get_roc_curve_data, pyGetD, hperf, hv, hnv]

/-- C3 counterexample to the claim as stated: on a details payload with no
    `perf` key at all (so the ROC visualization data is absent), the call
    does not raise; it returns the empty-mapping default. -/
theorem get_roc_curve_data_claim_counterexample :
    get_roc_curve_data (JVal.obj []) = Except.ok (JVal.obj []) := rfl

theorem get_roc_curve_data_spec_witness :
    get_roc_curve_data (JVal.obj [("perf", JVal.obj [("rocVizData", JVal.null)])]) =
      Except.error "This model does not have ROC visualization data" :=
  ((get_roc_curve_data_spec [("perf", JVal.obj [("rocVizData", JVal.null)])]).2
    [("rocVizData", JVal.null)] rfl).1 rfl

/-- C2 (corrected): `set_metric` raises exactly when both `metric` and
    `custom_metric` are None, leaving the settings untouched; with a metric
    and no custom metric it writes `evaluationMetric = metric` and
    `customEvaluationMetricCode = None`; whenever a custom metric is given
    (even together with a metric, which does not raise) it writes
    `evaluationMetric = CUSTOM` and stores the code verbatim; in every
    non-error call the four fields of `modeling.metrics` are written together
    and nothing else in the settings changes. -/
theorem set_metric_spec (settings mo me : Dict) (gib probas : Bool)
    (hmo : dget? settings "modeling" = some (JVal.obj mo))
    (hme : dget? mo "metrics" = some (JVal.obj me)) :
    (set_metric settings none none gib probas =
      (settings, some "Either metric or custom_metric must be defined")) ∧
    (∀ m out err, set_metric settings (some m) none gib probas = (out, err) →
      err = none ∧
      jget? (jget? (dget? out "modeling") "metrics") "evaluationMetric" =
        some (JVal.str m) ∧
      jget? (jget? (dget? out "modeling") "metrics") "customEvaluationMetricCode" =
        some JVal.null ∧
      jget? (jget? (dget? out "modeling") "metrics") "customEvaluationMetricGIB" =
        some (JVal.bool gib) ∧
      jget? (jget? (dget? out "modeling") "metrics") "customEvaluationMetricNeedsProba" =
        some (JVal.bool probas) ∧
      (∀ k, k ≠ "evaluationMetric" → k ≠ "customEvaluationMetricCode" →
        k ≠ "customEvaluationMetricGIB" → k ≠ "customEvaluationMetricNeedsProba" →
        jget? (jget? (dget? out "modeling") "metrics") k = dget? me k) ∧
      (∀ k, k ≠ "metrics" → jget? (dget? out "modeling") k = dget? mo k) ∧
      (∀ k, k ≠ "modeling" → dget? out k = dget? settings k)) ∧
    (∀ metric c out err, set_metric settings metric (some c) gib probas = (out, err) →
      err = none ∧
      jget? (jget? (dget? out "modeling") "metrics") "evaluationMetric" =
        some (JVal.str "CUSTOM") ∧
      jget? (jget? (dget? out "modeling") "metrics") "customEvaluationMetricCode" =
        some (JVal.str c) ∧
      jget? (jget? (dget? out "modeling") "metrics") "customEvaluationMetricGIB" =
        some (JVal.bool gib) ∧
      jget? (jget? (dget? out "modeling") "metrics") "customEvaluationMetricNeedsProba" =
        some (JVal.bool probas) ∧
      (∀ k, k ≠ "evaluationMetric" → k ≠ "customEvaluationMetricCode" →
        k ≠ "customEvaluationMetricGIB" → k ≠ "customEvaluationMetricNeedsProba" →
        jget? (jget? (dget? out "modeling") "metrics") k = dget? me k) ∧
      (∀ k, k ≠ "metrics" → jget? (dget? out "modeling") k = dget? mo k) ∧
      (∀ k, k ≠ "modeling" → dget? out k = dget? settings k)) := by
  refine ⟨by simp [set_metric], ?_, ?_⟩
  · intro m out err heq
    have hcomp : set_metric settings (some m) none gib probas =
        (dset settings "modeling" (JVal.obj (dset mo "metrics" (JVal.obj
          (dset (dset (dset (dset me "evaluationMetric" (JVal.str m))
            "customEvaluationMetricCode" JVal.null)
            "customEvaluationMetricGIB" (JVal.bool gib))
            "customEvaluationMetricNeedsProba" (JVal.bool probas))))), none) := by
      simp [set_metric, hmo, hme, optStr]
    rw [hcomp] at heq
    obtain ⟨hout, herr⟩ := Prod.mk.injEq .. ▸ heq
    subst hout
    subst herr
    refine ⟨rfl, ?_, ?_, ?_, ?_, ?_, ?_, ?_⟩
    · simp [jget?, dget?_dset_self, dget?_dset_ne]
    · simp [jget?, dget?_dset_self, dget?_dset_ne]
    · simp [jget?, dget?_dset_self, dget?_dset_ne]
    · simp [jget?, dget?_dset_self, dget?_dset_ne]
    · intro k h1 h2 h3 h4
      simp [jget?, dget?_dset_self,
        dget?_dset_ne _ _ _ _ h1, dget?_dset_ne _ _ _ _ h2,
        dget?_dset_ne _ _ _ _ h3, dget?_dset_ne _ _ _ _ h4]
    · intro k h1
      simp [jget?, dget?_dset_self, dget?_dset_ne _ _ _ _ h1]
    · intro k h1
      simp [dget?_dset_ne _ _ _ _ h1]
  · intro metric c out err heq
    have hcomp : set_metric settings metric (some c) gib probas =
        (dset settings "modeling" (JVal.obj (dset mo "metrics" (JVal.obj
          (dset (dset (dset (dset me "evaluationMetric" (JVal.str "CUSTOM"))
            "customEvaluationMetricCode" (JVal.str c))
            "customEvaluationMetricGIB" (JVal.bool gib))
            "customEvaluationMetricNeedsProba" (JVal.bool probas))))), none) := by
      simp [set_metric, hmo, hme, optStr]
    rw [hcomp] at heq
    obtain ⟨hout, herr⟩ := Prod.mk.injEq .. ▸ heq
    subst hout
    subst herr
    refine ⟨rfl, ?_, ?_, ?_, ?_, ?_, ?_, ?_⟩
    · simp [jget?, dget?_dset_self, dget?_dset_ne]
    · simp [jget?, dget?_dset_self, dget?_dset_ne]
    · simp [jget?, dget?_dset_self, dget?_dset_ne]
    · simp [jget?, dget?_dset_self, dget?_dset_ne]
    · intro k h1 h2 h3 h4
      simp [jget?, dget?_dset_self,
        dget?_dset_ne _ _ _ _ h1, dget?_dset_ne _ _ _ _ h2,
        dget?_dset_ne _ _ _ _ h3, dget?_dset_ne _ _ _ _ h4]
    · intro k h1
      simp [jget?, dget?_dset_self, dget?_dset_ne _ _ _ _ h1]
    · intro k h1
      simp [dget?_dset_ne _ _ _ _ h1]

/-- C2 counterexample to the claim as stated: calling with BOTH a metric and
    a custom metric does not raise (the code only raises when both are
    None); it writes `evaluationMetric = CUSTOM` and returns no error. -/
theorem set_metric_claim_counterexample :
    set_metric [("modeling", JVal.obj [("metrics", JVal.obj [])])]
        (some "AUC") (some "def score(y, p): return 1") true false =
      ([("modeling", JVal.obj [("metrics", JVal.obj
          [("evaluationMetric", JVal.str "CUSTOM"),
           ("customEvaluationMetricCode", JVal.str "def score(y, p): return 1"),
           ("customEvaluationMetricGIB", JVal.bool true),
           ("customEvaluationMetricNeedsProba", JVal.bool false)])])], none) := rfl

theorem set_metric_spec_witness :
    set_metric [("modeling", JVal.obj [("metrics", JVal.obj [])])] none none true false =
      ([("modeling", JVal.obj [("metrics", JVal.obj [])])],
       some "Either metric or custom_metric must be defined") :=
  (set_metric_spec [("modeling", JVal.obj [("metrics", JVal.obj [])])]
    [("metrics", JVal.obj [])] [] true false rfl rfl).1

/-- C1 (amended): `set_split_explicit` raises the mandatory-dataset error
    when `dataset_name` is None; when `test_dataset_name` is None or equal to
    `dataset_name` it writes `ttPolicy = EXPLICIT_FILTERING_SINGLE_DATASET`,
    `efsdDatasetSmartName = dataset_name` and fresh `efsdTrain` / `efsdTest`
    records carrying exactly the given selection and filter when non-None;
    otherwise it writes `ttPolicy = EXPLICIT_FILTERING_TWO_DATASETS` with
    `eftdTrain` / `eftdTest` records each carrying its own
    `datasetSmartName`.  All other `splitParams` keys are left untouched, so
    stale keys of the other shape from an earlier configuration survive the
    call: the active shape is identified by `ttPolicy`, not by which keys are
    present. -/
theorem set_split_explicit_spec (settings sp : Dict) (ts ss tf sf : Option JVal)
    (hsp : dget? settings "splitParams" = some (JVal.obj sp)) :
    (∀ tdn, set_split_explicit settings ts ss none tdn tf sf =
      (settings, some "For explicit splitting a dataset_name is mandatory")) ∧
    (∀ dn tdn out err, (tdn = none ∨ tdn = some dn) →
      set_split_explicit settings ts ss (some dn) tdn tf sf = (out, err) →
      err = none ∧
      jget? (dget? out "splitParams") "ttPolicy" =
        some (JVal.str "EXPLICIT_FILTERING_SINGLE_DATASET") ∧
      jget? (dget? out "splitParams") "efsdDatasetSmartName" = some (JVal.str dn) ∧
      jget? (dget? out "splitParams") "efsdTrain" =
        some (JVal.obj (buildSplitRecord [] ts tf)) ∧
      jget? (dget? out "splitParams") "efsdTest" =
        some (JVal.obj (buildSplitRecord [] ss sf)) ∧
      dget? (buildSplitRecord [] ts tf) "selection" = ts ∧
      dget? (buildSplitRecord [] ts tf) "filter" = tf ∧
      (∀ k, k ≠ "selection" → k ≠ "filter" → dget? (buildSplitRecord [] ts tf) k = none) ∧
      dget? (buildSplitRecord [] ss sf) "selection" = ss ∧
      dget? (buildSplitRecord [] ss sf) "filter" = sf ∧
      (∀ k, k ≠ "selection" → k ≠ "filter" → dget? (buildSplitRecord [] ss sf) k = none) ∧
      (∀ k, k ≠ "ttPolicy" → k ≠ "efsdDatasetSmartName" → k ≠ "efsdTrain" →
        k ≠ "efsdTest" → jget? (dget? out "splitParams") k = dget? sp k) ∧
      (∀ k, k ≠ "splitParams" → dget? out k = dget? settings k)) ∧
    (∀ dn tdn out err, tdn ≠ dn →
      set_split_explicit settings ts ss (some dn) (some tdn) tf sf = (out, err) →
      err = none ∧
      jget? (dget? out "splitParams") "ttPolicy" =
        some (JVal.str "EXPLICIT_FILTERING_TWO_DATASETS") ∧
      jget? (dget? out "splitParams") "eftdTrain" =
        some (JVal.obj (buildSplitRecord [("datasetSmartName", JVal.str dn)] ts tf)) ∧
      jget? (dget? out "splitParams") "eftdTest" =
        some (JVal.obj (buildSplitRecord [("datasetSmartName", JVal.str tdn)] ss sf)) ∧
      dget? (buildSplitRecord [("datasetSmartName", JVal.str dn)] ts tf)
        "datasetSmartName" = some (JVal.str dn) ∧
      dget? (buildSplitRecord [("datasetSmartName", JVal.str dn)] ts tf) "selection" = ts ∧
      dget? (buildSplitRecord [("datasetSmartName", JVal.str dn)] ts tf) "filter" = tf ∧
      dget? (buildSplitRecord [("datasetSmartName", JVal.str tdn)] ss sf)
        "datasetSmartName" = some (JVal.str tdn) ∧
      dget? (buildSplitRecord [("datasetSmartName", JVal.str tdn)] ss sf) "selection" = ss ∧
      dget? (buildSplitRecord [("datasetSmartName", JVal.str tdn)] ss sf) "filter" = sf ∧
      (∀ k, k ≠ "ttPolicy" → k ≠ "eftdTrain" → k ≠ "eftdTest" →
        jget? (dget? out "splitParams") k = dget? sp k) ∧
      (∀ k, k ≠ "splitParams" → dget? out k = dget? settings k)) := by
  refine ⟨?_, ?_, ?_⟩
  · intro tdn
    simp [set_split_explicit, hsp]
  · intro dn tdn out err hor heq
    have hcomp : set_split_explicit settings ts ss (some dn) tdn tf sf =
        (dset settings "splitParams" (JVal.obj
          (dset (dset (dset (dset sp "ttPolicy"
            (JVal.str "EXPLICIT_FILTERING_SINGLE_DATASET"))
            "efsdDatasetSmartName" (JVal.str dn))
            "efsdTrain" (JVal.obj (buildSplitRecord [] ts tf)))
            "efsdTest" (JVal.obj (buildSplitRecord [] ss sf)))), none) := by
      rcases hor with rfl | rfl
      · simp [set_split_explicit, hsp]
      · simp [set_split_explicit, hsp]
    rw [hcomp] at heq
    obtain ⟨hout, herr⟩ := Prod.mk.injEq .. ▸ heq
    subst hout
    subst herr
    refine ⟨rfl, ?_, ?_, ?_, ?_, ?_, ?_, ?_, ?_, ?_, ?_, ?_, ?_⟩
    · simp [jget?, dget?_dset_self, dget?_dset_ne]
    · simp [jget?, dget?_dset_self, dget?_dset_ne]
    · simp [jget?, dget?_dset_self, dget?_dset_ne]
    · simp [jget?, dget?_dset_self, dget?_dset_ne]
    · cases ts <;> cases tf <;> simp [buildSplitRecord, dset, dget?]
    · cases ts <;> cases tf <;> simp [buildSplitRecord, dset, dget?]
    · intro k h1 h2
      cases ts <;> cases tf <;>
        simp [buildSplitRecord, dset, dget?, Ne.symm h1, Ne.symm h2]
    · cases ss <;> cases sf <;> simp [buildSplitRecord, dset, dget?]
    · cases ss <;> cases sf <;> simp [buildSplitRecord, dset, dget?]
    · intro k h1 h2
      cases ss <;> cases sf <;>
        simp [buildSplitRecord, dset, dget?, Ne.symm h1, Ne.symm h2]
    · intro k h1 h2 h3 h4
      simp [jget?, dget?_dset_self, dget?_dset_ne _ _ _ _ h1,
        dget?_dset_ne _ _ _ _ h2, dget?_dset_ne _ _ _ _ h3, dget?_dset_ne _ _ _ _ h4]
    · intro k h1
      simp [dget?_dset_ne _ _ _ _ h1]
  · intro dn tdn out err hne heq
    have hcomp : set_split_explicit settings ts ss (some dn) (some tdn) tf sf =
        (dset settings "splitParams" (JVal.obj
          (dset (dset (dset sp "ttPolicy"
            (JVal.str "EXPLICIT_FILTERING_TWO_DATASETS"))
            "eftdTrain" (JVal.obj (buildSplitRecord
              [("datasetSmartName", JVal.str dn)] ts tf)))
            "eftdTest" (JVal.obj (buildSplitRecord
              [("datasetSmartName", JVal.str tdn)] ss sf)))), none) := by
      simp [set_split_explicit, hsp, hne]
    rw [hcomp] at heq
    obtain ⟨hout, herr⟩ := Prod.mk.injEq .. ▸ heq
    subst hout
    subst herr
    refine ⟨rfl, ?_, ?_, ?_, ?_, ?_, ?_, ?_, ?_, ?_, ?_, ?_⟩
    · simp [jget?, dget?_dset_self, dget?_dset_ne]
    · simp [jget?, dget?_dset_self, dget?_dset_ne]
    · simp [jget?, dget?_dset_self, dget?_dset_ne]
    · cases ts <;> cases tf <;> simp [buildSplitRecord, dset, dget?]
    · cases ts <;> cases tf <;> simp [buildSplitRecord, dset, dget?]
    · cases ts <;> cases tf <;> simp [buildSplitRecord, dset, dget?]
    · cases ss <;> cases sf <;> simp [buildSplitRecord, dset, dget?]
    · cases ss <;> cases sf <;> simp [buildSplitRecord, dset, dget?]
    · cases ss <;> cases sf <;> simp [buildSplitRecord, dset, dget?]
    · intro k h1 h2 h3
      simp [jget?, dget?_dset_self, dget?_dset_ne _ _ _ _ h1,
        dget?_dset_ne _ _ _ _ h2, dget?_dset_ne _ _ _ _ h3]
    · intro k h1
      simp [dget?_dset_ne _ _ _ _ h1]

/-- C1 counterexample to the claim as stated: on a splitParams mapping
    already configured in the single-dataset explicit shape, a two-dataset
    call writes the `eftd*` keys but does not remove the stale `efsd*` keys,
    so both key shapes are present after the call. -/
theorem set_split_explicit_claim_counterexample :
    set_split_explicit
        [("splitParams", JVal.obj
           [("ttPolicy", JVal.str "EXPLICIT_FILTERING_SINGLE_DATASET"),
            ("efsdDatasetSmartName", JVal.str "ds"),
            ("efsdTrain", JVal.obj []), ("efsdTest", JVal.obj [])])]
        none none (some "ds") (some "other") none none =
      ([("splitParams", JVal.obj
           [("ttPolicy", JVal.str "EXPLICIT_FILTERING_TWO_DATASETS"),
            ("efsdDatasetSmartName", JVal.str "ds"),
            ("efsdTrain", JVal.obj []), ("efsdTest", JVal.obj []),
            ("eftdTrain", JVal.obj [("datasetSmartName", JVal.str "ds")]),
            ("eftdTest", JVal.obj [("datasetSmartName", JVal.str "other")])])],
       none) := rfl

theorem set_split_explicit_spec_witness :
    (set_split_explicit [("splitParams", JVal.obj [])] (some (JVal.str "S")) none
      (some "d") none none none).2 = none ∧
    jget? (dget? (set_split_explicit [("splitParams", JVal.obj [])]
        (some (JVal.str "S")) none (some "d") none none none).1 "splitParams")
      "ttPolicy" = some (JVal.str "EXPLICIT_FILTERING_SINGLE_DATASET") := by
  have h := (set_split_explicit_spec [("splitParams", JVal.obj [])] []
      (some (JVal.str "S")) none none none rfl).2.1 "d" none
      (set_split_explicit [("splitParams", JVal.obj [])] (some (JVal.str "S")) none
        (some "d") none none none).1
      (set_split_explicit [("splitParams", JVal.obj [])] (some (JVal.str "S")) none
        (some "d") none none none).2
      (Or.inl rfl) rfl
  exact ⟨h.1, h.2.1⟩

/-- C4 (code bug, evaluation at the failing input): with a type filter
    NUMERIC and the identity transform, `foreach_feature` rebuilds
    `per_feature` keeping ONLY the transformed NUMERIC input feature: the
    target-role feature and the TEXT feature are silently dropped from the
    settings instead of remaining present unchanged as the spec states. -/
theorem foreach_feature_code_bug_eval :
    foreach_feature
        [("preprocessing", JVal.obj [("per_feature", JVal.obj
           [("t", JVal.obj [("role", JVal.str "TARGET"), ("type", JVal.str "NUMERIC")]),
            ("a", JVal.obj [("role", JVal.str "INPUT"), ("type", JVal.str "NUMERIC")]),
            ("b", JVal.obj [("role", JVal.str "INPUT"), ("type", JVal.str "TEXT")])])])]
        (fun _ v => v) (some "NUMERIC") =
      ([("preprocessing", JVal.obj [("per_feature", JVal.obj
           [("a", JVal.obj [("role", JVal.str "INPUT"),
                            ("type", JVal.str "NUMERIC")])])])], none) ∧
    jget? (jget? (dget?
        [("preprocessing", JVal.obj [("per_feature", JVal.obj
           [("a", JVal.obj [("role", JVal.str "INPUT"),
                            ("type", JVal.str "NUMERIC")])])])] "preprocessing")
      "per_feature") "t" = none ∧
    jget? (jget? (dget?
        [("preprocessing", JVal.obj [("per_feature", JVal.obj
           [("a", JVal.obj [("role", JVal.str "INPUT"),
                            ("type", JVal.str "NUMERIC")])])])] "preprocessing")
      "per_feature") "b" = none :=
  ⟨rfl, rfl, rfl⟩

theorem flipWeightRoleObj_other (o : Dict) (k : String) (h : k ≠ "role") :
    dget? (flipWeightRoleObj o) k = dget? o k := by
  unfold flipWeightRoleObj
  cases hrole : dget? o "role" with
  | none => rfl
  | some r =>
    by_cases hw : pyStrEq r "WEIGHT"
    · simp [hw, dget?_dset_ne _ _ _ _ h]
    · simp [hw]

theorem flipWeightRoleObj_role (o : Dict) (r : JVal) (h : dget? o "role" = some r) :
    dget? (flipWeightRoleObj o) "role" =
      some (if pyStrEq r "WEIGHT" then JVal.str "INPUT" else r) := by
  unfold flipWeightRoleObj
  rw [h]
  by_cases hw : pyStrEq r "WEIGHT"
  · simp [hw, dget?_dset_self]
  · simp [hw, h]

theorem resetWeightRoles_wf (pf : Dict)
    (hwf : pf.all (fun p => match p.2 with
      | JVal.obj o => dhas o "role"
      | _ => false) = true) :
    (resetWeightRoles pf).2 = none ∧
    (∀ k, dget? (resetWeightRoles pf).1 k = (dget? pf k).map flipWeightRole) := by
  induction pf with
  | nil => exact ⟨rfl, fun k => rfl⟩
  | cons p rest ih =>
    obtain ⟨k1, v1⟩ := p
    simp only [List.all_cons, Bool.and_eq_true] at hwf
    obtain ⟨hv, hrest⟩ := hwf
    obtain ⟨ih1, ih2⟩ := ih hrest
    match v1, hv with
    | JVal.obj o, hv =>
      obtain ⟨r, hr⟩ := Option.isSome_iff_exists.mp hv
      constructor
      · simp only [resetWeightRoles, hr]
        exact ih1
      · intro k
        by_cases hk : k1 = k
        · subst hk
          by_cases hwt : pyStrEq r "WEIGHT"
          · simp [resetWeightRoles, hr, dget?, flipWeightRole, flipWeightRoleObj, hwt]
          · simp [resetWeightRoles, hr, dget?, flipWeightRole, flipWeightRoleObj, hwt]
        · simp only [resetWeightRoles, hr, dget?, if_neg hk]
          exact ih2 k

theorem remove_sample_weighting_wf (settings w pre pf : Dict)
    (hw : dget? settings "weight" = some (JVal.obj w))
    (hpre : dget? settings "preprocessing" = some (JVal.obj pre))
    (hpf : dget? pre "per_feature" = some (JVal.obj pf)) :
    remove_sample_weighting settings =
      (dset (dset settings "weight"
          (JVal.obj (dset w "weightMethod" (JVal.str "NO_WEIGHTING"))))
        "preprocessing"
        (JVal.obj (dset pre "per_feature" (JVal.obj (resetWeightRoles pf).1))),
       (resetWeightRoles pf).2) := by
  have hpre2 : dget? (dset settings "weight"
      (JVal.obj (dset w "weightMethod" (JVal.str "NO_WEIGHTING")))) "preprocessing" =
      some (JVal.obj pre) := by
    rw [dget?_dset_ne _ _ _ _ (by decide)]
    exact hpre
  simp only [remove_sample_weighting, hw, hpre2, hpf]

/-- C5: for a feature name absent from `preprocessing.per_feature`,
    `use_sample_weighting` raises the ValueError and the settings afterwards
    are exactly the state produced by the reset step
    (`remove_sample_weighting`): `weight.weightMethod = NO_WEIGHTING`, every
    feature that had role WEIGHT now has role INPUT, and nothing else
    (including `weight.sampleWeightVariable` and all other feature params)
    is changed.  For a present feature name it sets
    `weightMethod = SAMPLE_WEIGHT`, `sampleWeightVariable = feature_name`
    and that feature's role to WEIGHT. -/
theorem use_sample_weighting_spec (settings w pre pf : Dict)
    (hw : dget? settings "weight" = some (JVal.obj w))
    (hpre : dget? settings "preprocessing" = some (JVal.obj pre))
    (hpf : dget? pre "per_feature" = some (JVal.obj pf))
    (hwf : pf.all (fun p => match p.2 with
      | JVal.obj o => dhas o "role"
      | _ => false) = true) :
    (∀ fname, dhas pf fname = false →
      use_sample_weighting settings fname = ((remove_sample_weighting settings).1,
        some "ValueError: feature does not exist in this ML task, cannot use as weight") ∧
      jget? (dget? (remove_sample_weighting settings).1 "weight") "weightMethod" =
        some (JVal.str "NO_WEIGHTING") ∧
      (∀ k, k ≠ "weightMethod" →
        jget? (dget? (remove_sample_weighting settings).1 "weight") k = dget? w k) ∧
      (∀ k o2 r, dget? pf k = some (JVal.obj o2) → dget? o2 "role" = some r →
        jget? (jget? (jget? (dget? (remove_sample_weighting settings).1
            "preprocessing") "per_feature") k) "role" =
          some (if pyStrEq r "WEIGHT" then JVal.str "INPUT" else r)) ∧
      (∀ k o2, dget? pf k = some (JVal.obj o2) → ∀ k2, k2 ≠ "role" →
        jget? (jget? (jget? (dget? (remove_sample_weighting settings).1
            "preprocessing") "per_feature") k) k2 = dget? o2 k2) ∧
      (∀ k, k ≠ "per_feature" →
        jget? (dget? (remove_sample_weighting settings).1 "preprocessing") k =
          dget? pre k) ∧
      (∀ k, k ≠ "weight" → k ≠ "preprocessing" →
        dget? (remove_sample_weighting settings).1 k = dget? settings k)) ∧
    (∀ fname fv out err, dget? pf fname = some (JVal.obj fv) →
      use_sample_weighting settings fname = (out, err) →
      err = none ∧
      jget? (dget? out "weight") "weightMethod" = some (JVal.str "SAMPLE_WEIGHT") ∧
      jget? (dget? out "weight") "sampleWeightVariable" = some (JVal.str fname) ∧
      jget? (jget? (jget? (dget? out "preprocessing") "per_feature") fname) "role" =
        some (JVal.str "WEIGHT")) := by
  have hrm := remove_sample_weighting_wf settings w pre pf hw hpre hpf
  obtain ⟨hrr0, hmap⟩ := resetWeightRoles_wf pf hwf
  rw [hrr0] at hrm
  constructor
  · intro fname habs
    have h0 : dget? pf fname = none := by
      cases hcase : dget? pf fname with
      | none => rfl
      | some v => simp [dhas, hcase] at habs
    have hdhasR : dhas (resetWeightRoles pf).1 fname = false := by
      simp [dhas, hmap fname, h0]
    rw [hrm]
    have hcomp : use_sample_weighting settings fname =
        (dset (dset settings "weight"
            (JVal.obj (dset w "weightMethod" (JVal.str "NO_WEIGHTING"))))
          "preprocessing"
          (JVal.obj (dset pre "per_feature" (JVal.obj (resetWeightRoles pf).1))),
         some "ValueError: feature does not exist in this ML task, cannot use as weight") := by
      simp only [use_sample_weighting, hrm]
      simp [dget?_dset_self, hdhasR]
    refine ⟨hcomp, ?_, ?_, ?_, ?_, ?_, ?_⟩
    · simp [jget?, dget?_dset_self, dget?_dset_ne]
    · intro k hk
      simp [jget?, dget?_dset_self, dget?_dset_ne, dget?_dset_ne _ _ _ _ hk]
    · intro k o2 r hko hro
      simp [jget?, dget?_dset_self, hmap k, hko, flipWeightRole,
        flipWeightRoleObj_role o2 r hro]
    · intro k o2 hko k2 hk2
      simp [jget?, dget?_dset_self, hmap k, hko, flipWeightRole,
        flipWeightRoleObj_other o2 k2 hk2]
    · intro k hk
      simp [jget?, dget?_dset_self, dget?_dset_ne _ _ _ _ hk]
    · intro k h1 h2
      simp [dget?_dset_ne _ _ _ _ h1, dget?_dset_ne _ _ _ _ h2]
  · intro fname fv out err hfv heq
    have hpfRf : dget? (resetWeightRoles pf).1 fname =
        some (JVal.obj (flipWeightRoleObj fv)) := by
      simp [hmap fname, hfv, flipWeightRole]
    have hdhasR : dhas (resetWeightRoles pf).1 fname = true := by
      simp [dhas, hpfRf]
    have hcomp : use_sample_weighting settings fname =
        (dset (dset (dset (dset settings "weight"
              (JVal.obj (dset w "weightMethod" (JVal.str "NO_WEIGHTING"))))
            "preprocessing"
            (JVal.obj (dset pre "per_feature" (JVal.obj (resetWeightRoles pf).1))))
          "weight"
          (JVal.obj (dset (dset (dset w "weightMethod" (JVal.str "NO_WEIGHTING"))
            "weightMethod" (JVal.str "SAMPLE_WEIGHT"))
            "sampleWeightVariable" (JVal.str fname))))
          "preprocessing"
          (JVal.obj (dset (dset pre "per_feature" (JVal.obj (resetWeightRoles pf).1))
            "per_feature"
            (JVal.obj (dset (resetWeightRoles pf).1 fname
              (JVal.obj (dset (flipWeightRoleObj fv) "role" (JVal.str "WEIGHT"))))))),
         none) := by
      simp only [use_sample_weighting, hrm]
      simp [dget?_dset_self, dget?_dset_ne, hdhasR, hpfRf]
    rw [hcomp] at heq
    obtain ⟨hout, herr⟩ := Prod.mk.injEq .. ▸ heq
    subst hout
    subst herr
    refine ⟨rfl, ?_, ?_, ?_⟩
    · simp [jget?, dget?_dset_self, dget?_dset_ne]
    · simp [jget?, dget?_dset_self, dget?_dset_ne]
    · simp [jget?, dget?_dset_self, dget?_dset_ne]

theorem use_sample_weighting_spec_witness :
    use_sample_weighting
        [("weight", JVal.obj [("sampleWeightVariable", JVal.str "old")]),
         ("preprocessing", JVal.obj [("per_feature", JVal.obj
            [("f2", JVal.obj [("role", JVal.str "WEIGHT")])])])] "f1" =
      ((remove_sample_weighting
          [("weight", JVal.obj [("sampleWeightVariable", JVal.str "old")]),
           ("preprocessing", JVal.obj [("per_feature", JVal.obj
              [("f2", JVal.obj [("role", JVal.str "WEIGHT")])])])]).1,
       some "ValueError: feature does not exist in this ML task, cannot use as weight") ∧
    (use_sample_weighting
        [("weight", JVal.obj [("sampleWeightVariable", JVal.str "old")]),
         ("preprocessing", JVal.obj [("per_feature", JVal.obj
            [("f2", JVal.obj [("role", JVal.str "WEIGHT")])])])] "f2").2 = none ∧
    jget? (jget? (jget? (dget? (use_sample_weighting
        [("weight", JVal.obj [("sampleWeightVariable", JVal.str "old")]),
         ("preprocessing", JVal.obj [("per_feature", JVal.obj
            [("f2", JVal.obj [("role", JVal.str "WEIGHT")])])])] "f2").1
      "preprocessing") "per_feature") "f2") "role" = some (JVal.str "WEIGHT") := by
  have hA := (use_sample_weighting_spec
      [("weight", JVal.obj [("sampleWeightVariable", JVal.str "old")]),
       ("preprocessing", JVal.obj [("per_feature", JVal.obj
          [("f2", JVal.obj [("role", JVal.str "WEIGHT")])])])]
      [("sampleWeightVariable", JVal.str "old")]
      [("per_feature", JVal.obj [("f2", JVal.obj [("role", JVal.str "WEIGHT")])])]
      [("f2", JVal.obj [("role", JVal.str "WEIGHT")])]
      rfl rfl rfl rfl)
  have hB := hA.2 "f2" [("role", JVal.str "WEIGHT")]
      (use_sample_weighting
        [("weight", JVal.obj [("sampleWeightVariable", JVal.str "old")]),
         ("preprocessing", JVal.obj [("per_feature", JVal.obj
            [("f2", JVal.obj [("role", JVal.str "WEIGHT")])])])] "f2").1
      (use_sample_weighting
        [("weight", JVal.obj [("sampleWeightVariable", JVal.str "old")]),
         ("preprocessing", JVal.obj [("per_feature", JVal.obj
            [("f2", JVal.obj [("role", JVal.str "WEIGHT")])])])] "f2").2
      rfl rfl
  exact ⟨(hA.1 "f1" rfl).1, hB.1, hB.2.2.2⟩

/-- C8: `get_algorithm_settings` first applies the task-type remap table and
    then indexes `modeling`: a remapped name indexes at the remap's value
    (every value of both class tables is already lowercase, so the trailing
    `.lower()` is the identity on it), an unmapped name indexes at its own
    lowercasing; `set_algorithm_enabled` writes the `enabled` field of
    exactly that entry and nothing else. -/
theorem get_algorithm_settings_spec (settings m : Dict)
    (hm : dget? settings "modeling" = some (JVal.obj m)) :
    (∀ n r, remapLookup predictionAlgorithmRemap n = some r → pyLower r = r) ∧
    (∀ n r, remapLookup clusteringAlgorithmRemap n = some r → pyLower r = r) ∧
    (∀ remap name r v, (∀ n r2, remapLookup remap n = some r2 → pyLower r2 = r2) →
      remapLookup remap name = some r → dget? m r = some v →
      get_algorithm_settings remap settings name = Except.ok v) ∧
    (∀ remap name v, remapLookup remap name = none →
      dget? m (pyLower name) = some v →
      get_algorithm_settings remap settings name = Except.ok v) ∧
    (∀ remap name r entry enabled out err,
      (∀ n r2, remapLookup remap n = some r2 → pyLower r2 = r2) →
      remapLookup remap name = some r →
      dget? m r = some (JVal.obj entry) →
      set_algorithm_enabled remap settings name enabled = (out, err) →
      err = none ∧
      jget? (jget? (dget? out "modeling") r) "enabled" = some (JVal.bool enabled) ∧
      (∀ k, k ≠ "enabled" → jget? (jget? (dget? out "modeling") r) k = dget? entry k) ∧
      (∀ k, k ≠ r → jget? (dget? out "modeling") k = dget? m k) ∧
      (∀ k, k ≠ "modeling" → dget? out k = dget? settings k)) ∧
    (∀ remap name entry enabled out err,
      remapLookup remap name = none →
      dget? m (pyLower name) = some (JVal.obj entry) →
      set_algorithm_enabled remap settings name enabled = (out, err) →
      err = none ∧
      jget? (jget? (dget? out "modeling") (pyLower name)) "enabled" =
        some (JVal.bool enabled) ∧
      (∀ k, k ≠ "enabled" →
        jget? (jget? (dget? out "modeling") (pyLower name)) k = dget? entry k) ∧
      (∀ k, k ≠ (pyLower name) → jget? (dget? out "modeling") k = dget? m k) ∧
      (∀ k, k ≠ "modeling" → dget? out k = dget? settings k)) := by
  refine ⟨?_, ?_, ?_, ?_, ?_, ?_⟩
  · intro n r h
    simp only [predictionAlgorithmRemap, remapLookup] at h
    split_ifs at h
    all_goals first
      | exact Option.noConfusion h
      | (injection h with h2; subst h2; decide)
  · intro n r h
    simp only [clusteringAlgorithmRemap, remapLookup] at h
    split_ifs at h
    all_goals first
      | exact Option.noConfusion h
      | (injection h with h2; subst h2; decide)
  · intro remap name r v hlow hr hv
    have hl := hlow name r hr
    simp [get_algorithm_settings, pyGet, hr, hl, hm, hv]
  · intro remap name v hr hv
    simp [get_algorithm_settings, pyGet, hr, hm, hv]
  · intro remap name r entry enabled out err hlow hr hv heq
    have hl := hlow name r hr
    have hcomp : set_algorithm_enabled remap settings name enabled =
        (dset settings "modeling"
          (JVal.obj (dset m r (JVal.obj (dset entry "enabled" (JVal.bool enabled))))),
         none) := by
      simp [set_algorithm_enabled, hr, hl, hm, hv]
    rw [hcomp] at heq
    obtain ⟨hout, herr⟩ := Prod.mk.injEq .. ▸ heq
    subst hout
    subst herr
    refine ⟨rfl, ?_, ?_, ?_, ?_⟩
    · simp [jget?, dget?_dset_self]
    · intro k hk
      simp [jget?, dget?_dset_self, dget?_dset_ne _ _ _ _ hk]
    · intro k hk
      simp [jget?, dget?_dset_self, dget?_dset_ne _ _ _ _ hk]
    · intro k hk
      simp [dget?_dset_ne _ _ _ _ hk]
  · intro remap name entry enabled out err hr hv heq
    have hcomp : set_algorithm_enabled remap settings name enabled =
        (dset settings "modeling"
          (JVal.obj (dset m (pyLower name)
            (JVal.obj (dset entry "enabled" (JVal.bool enabled))))),
         none) := by
      simp [set_algorithm_enabled, hr, hm, hv]
    rw [hcomp] at heq
    obtain ⟨hout, herr⟩ := Prod.mk.injEq .. ▸ heq
    subst hout
    subst herr
    refine ⟨rfl, ?_, ?_, ?_, ?_⟩
    · simp [jget?, dget?_dset_self]
    · intro k hk
      simp [jget?, dget?_dset_self, dget?_dset_ne _ _ _ _ hk]
    · intro k hk
      simp [jget?, dget?_dset_self, dget?_dset_ne _ _ _ _ hk]
    · intro k hk
      simp [dget?_dset_ne _ _ _ _ hk]

theorem get_algorithm_settings_spec_witness :
    get_algorithm_settings predictionAlgorithmRemap
        [("modeling", JVal.obj [("xgboost", JVal.obj [("enabled", JVal.bool false)])])]
        "XGBOOST_CLASSIFICATION" =
      Except.ok (JVal.obj [("enabled", JVal.bool false)]) ∧
    (set_algorithm_enabled predictionAlgorithmRemap
        [("modeling", JVal.obj [("xgboost", JVal.obj [("enabled", JVal.bool false)])])]
        "XGBOOST_CLASSIFICATION" true).2 = none ∧
    jget? (jget? (dget? (set_algorithm_enabled predictionAlgorithmRemap
        [("modeling", JVal.obj [("xgboost", JVal.obj [("enabled", JVal.bool false)])])]
        "XGBOOST_CLASSIFICATION" true).1 "modeling") "xgboost") "enabled" =
      some (JVal.bool true) := by
  have hA := get_algorithm_settings_spec
      [("modeling", JVal.obj [("xgboost", JVal.obj [("enabled", JVal.bool false)])])]
      [("xgboost", JVal.obj [("enabled", JVal.bool false)])] rfl
  have hSet := hA.2.2.2.2.1 predictionAlgorithmRemap "XGBOOST_CLASSIFICATION" "xgboost"
      [("enabled", JVal.bool false)] true
      (set_algorithm_enabled predictionAlgorithmRemap
        [("modeling", JVal.obj [("xgboost", JVal.obj [("enabled", JVal.bool false)])])]
        "XGBOOST_CLASSIFICATION" true).1
      (set_algorithm_enabled predictionAlgorithmRemap
        [("modeling", JVal.obj [("xgboost", JVal.obj [("enabled", JVal.bool false)])])]
        "XGBOOST_CLASSIFICATION" true).2
      hA.1 rfl rfl rfl
  exact ⟨hA.2.2.1 predictionAlgorithmRemap "XGBOOST_CLASSIFICATION" "xgboost"
      (JVal.obj [("enabled", JVal.bool false)]) hA.1 rfl rfl,
    hSet.1, hSet.2.1⟩

/-- C10: both `get_performance_metrics` variants are non-mutating reads: the
    wrapper's stored snippet is identical before and after the call, the
    result equals the stored snippet with the variant's fixed bookkeeping
    keys removed (keys not in the list kept with unchanged values, listed
    keys absent), and calling again returns the same result. -/
theorem get_performance_metrics_spec (snippet : Dict) :
    (prediction_get_performance_metrics snippet).1 = snippet ∧
    (prediction_get_performance_metrics snippet).2 =
      removeKeys snippet predictionPerfDroppedKeys ∧
    (∀ k, k ∈ predictionPerfDroppedKeys →
      dget? (prediction_get_performance_metrics snippet).2 k = none) ∧
    (∀ k, k ∉ predictionPerfDroppedKeys →
      dget? (prediction_get_performance_metrics snippet).2 k = dget? snippet k) ∧
    prediction_get_performance_metrics (prediction_get_performance_metrics snippet).1 =
      prediction_get_performance_metrics snippet ∧
    (clustering_get_performance_metrics snippet).1 = snippet ∧
    (clustering_get_performance_metrics snippet).2 =
      removeKeys snippet clusteringPerfDroppedKeys ∧
    (∀ k, k ∈ clusteringPerfDroppedKeys →
      dget? (clustering_get_performance_metrics snippet).2 k = none) ∧
    (∀ k, k ∉ clusteringPerfDroppedKeys →
      dget? (clustering_get_performance_metrics snippet).2 k = dget? snippet k) ∧
    clustering_get_performance_metrics (clustering_get_performance_metrics snippet).1 =
      clustering_get_performance_metrics snippet := by
  refine ⟨rfl, by simp only [prediction_get_performance_metrics], ?_, ?_,
    by simp only [prediction_get_performance_metrics], rfl,
    by simp only [clustering_get_performance_metrics], ?_, ?_,
    by simp only [clustering_get_performance_metrics]⟩
  · intro k hk
    simp only [prediction_get_performance_metrics]
    simp [dget?_removeKeys, hk]
  · intro k hk
    simp only [prediction_get_performance_metrics]
    simp [dget?_removeKeys, hk]
  · intro k hk
    simp only [clustering_get_performance_metrics]
    simp [dget?_removeKeys, hk]
  · intro k hk
    simp only [clustering_get_performance_metrics]
    simp [dget?_removeKeys, hk]

theorem get_performance_metrics_spec_witness :
    dget? (prediction_get_performance_metrics
        [("auc", JVal.num 1), ("algorithm", JVal.str "XGB")]).2 "algorithm" = none ∧
    dget? (prediction_get_performance_metrics
        [("auc", JVal.num 1), ("algorithm", JVal.str "XGB")]).2 "auc" =
      some (JVal.num 1) ∧
    dget? (clustering_get_performance_metrics
        [("silhouette", JVal.num 7), ("facts", JVal.arr [])]).2 "facts" = none := by
  have hp := get_performance_metrics_spec [("auc", JVal.num 1), ("algorithm", JVal.str "XGB")]
  have hc := get_performance_metrics_spec [("silhouette", JVal.num 7), ("facts", JVal.arr [])]
  exact ⟨hp.2.2.1 "algorithm" (by decide), hp.2.2.2.1 "auc" (by decide),
    hc.2.2.2.2.2.2.2.1 "facts" (by decide)⟩

/-- C6: `get_trained_model_details` returns a clustering wrapper exactly
    when the details response mapping contains the key `facts`, and a
    prediction wrapper otherwise; either way the wrapper holds the fetched
    details and the snippet obtained by the secondary single-id snippet
    fetch for the same id. -/
theorem get_trained_model_details_spec (c : MLClient) (id : String)
    (det snipResp : Dict) (snip : JVal)
    (hdet : c.modelDetailsResp id = JVal.obj det)
    (hsnip : c.modelsSnippetsResp
      (JVal.obj [("modelsIds", JVal.arr [JVal.str id])]) = JVal.obj snipResp)
    (hid : dget? snipResp id = some snip) :
    get_trained_model_details c id =
      Except.ok (if dhas det "facts" then
        TrainedModelDetails.clustering (JVal.obj det) snip
      else
        TrainedModelDetails.prediction (JVal.obj det) snip) := by
  by_cases hf : dhas det "facts"
  · simp [get_trained_model_details, get_trained_model_snippet, hsnip, pyGet,
      hid, hdet, hf]
  · simp [get_trained_model_details, get_trained_model_snippet, hsnip, pyGet,
      hid, hdet, hf]

theorem get_trained_model_details_spec_witness :
    get_trained_model_details
        (MLClient.mk JVal.null (fun _ => JVal.obj [("facts", JVal.arr [])])
          (fun _ => JVal.obj [("m1", JVal.str "clusnip")])) "m1" =
      Except.ok (TrainedModelDetails.clustering
        (JVal.obj [("facts", JVal.arr [])]) (JVal.str "clusnip")) ∧
    get_trained_model_details
        (MLClient.mk JVal.null (fun _ => JVal.obj [("perf", JVal.obj [])])
          (fun _ => JVal.obj [("m1", JVal.str "predsnip")])) "m1" =
      Except.ok (TrainedModelDetails.prediction
        (JVal.obj [("perf", JVal.obj [])]) (JVal.str "predsnip")) := by
  have h1 := get_trained_model_details_spec
      (MLClient.mk JVal.null (fun _ => JVal.obj [("facts", JVal.arr [])])
        (fun _ => JVal.obj [("m1", JVal.str "clusnip")])) "m1"
      [("facts", JVal.arr [])] [("m1", JVal.str "clusnip")] (JVal.str "clusnip")
      rfl rfl rfl
  have h2 := get_trained_model_details_spec
      (MLClient.mk JVal.null (fun _ => JVal.obj [("perf", JVal.obj [])])
        (fun _ => JVal.obj [("m1", JVal.str "predsnip")])) "m1"
      [("perf", JVal.obj [])] [("m1", JVal.str "predsnip")] (JVal.str "predsnip")
      rfl rfl rfl
  exact ⟨by simpa [dhas, dget?] using h1, by simpa [dhas, dget?] using h2⟩

theorem projectIds_mk (entries : List (String × String)) :
    projectIds (entries.map (fun p => mkFullModelEntry p.1 p.2)) =
      Except.ok (entries.map (fun p => JVal.str p.1)) := by
  induction entries with
  | nil => rfl
  | cons p rest ih =>
    simp only [mkFullModelEntry] at ih
    simp [projectIds, mkFullModelEntry, pyGet, dget?, ih]

theorem filterBySession_mk (sid : String) (entries : List (String × String)) :
    filterBySession sid (entries.map (fun p => mkFullModelEntry p.1 p.2)) =
      Except.ok ((entries.filter (fun p => p.2 == sid)).map
        (fun p => mkFullModelEntry p.1 p.2)) := by
  induction entries with
  | nil => rfl
  | cons p rest ih =>
    obtain ⟨i, s⟩ := p
    simp only [mkFullModelEntry] at ih
    by_cases hs : s = sid
    · simp [filterBySession, mkFullModelEntry, pyGetD, dget?, ih, pyStrEq, hs,
        List.filter_cons, beq_iff_eq]
    · simp [filterBySession, mkFullModelEntry, pyGetD, dget?, ih, pyStrEq, hs,
        List.filter_cons, beq_iff_eq]

theorem filterIdsByAlgorithm_mk (alg : String) (snips : List (String × String)) :
    filterIdsByAlgorithm alg (mkSnippets snips) =
      Except.ok ((snips.filter (fun p => p.2 == alg)).map
        (fun p => JVal.str p.1)) := by
  induction snips with
  | nil => rfl
  | cons p rest ih =>
    obtain ⟨i, s⟩ := p
    simp only [mkSnippets] at ih
    by_cases hs : s = alg
    · simp [filterIdsByAlgorithm, mkSnippets, pyGetD, dget?, ih, pyStrEq, hs,
        List.filter_cons, beq_iff_eq]
    · simp [filterIdsByAlgorithm, mkSnippets, pyGetD, dget?, ih, pyStrEq, hs,
        List.filter_cons, beq_iff_eq]

/-- C9: over a status whose `fullModelIds` holds well-formed entries,
    `get_trained_models_ids` with no filter returns the `id` of every entry;
    with a session filter it keeps exactly the entries whose
    `fullModelId.sessionId` equals the filter (inclusive on equality); with
    an algorithm filter it performs the secondary snippet fetch for the
    projected ids and returns exactly the response ids whose snippet's
    `algorithm` equals the filter (inclusive on equality). -/
theorem get_trained_models_ids_spec (c : MLClient) (entries : List (String × String))
    (hst : c.statusResp = mkStatus entries) :
    get_trained_models_ids c none none =
      Except.ok (entries.map (fun p => JVal.str p.1)) ∧
    (∀ sid, get_trained_models_ids c (some sid) none =
      Except.ok ((entries.filter (fun p => p.2 == sid)).map
        (fun p => JVal.str p.1))) ∧
    (∀ alg snips, c.modelsSnippetsResp (JVal.obj [("modelsIds",
        JVal.arr (entries.map (fun p => JVal.str p.1)))]) =
        JVal.obj (mkSnippets snips) →
      get_trained_models_ids c none (some alg) =
        Except.ok ((snips.filter (fun p => p.2 == alg)).map
          (fun p => JVal.str p.1))) := by
  refine ⟨?_, ?_, ?_⟩
  · simp [get_trained_models_ids, pyGet, hst, mkStatus, dget?, projectIds_mk]
  · intro sid
    simp [get_trained_models_ids, pyGet, hst, mkStatus, dget?,
      filterBySession_mk, projectIds_mk]
  · intro alg snips hresp
    simp [get_trained_models_ids, get_trained_model_snippet, pyGet, hst,
      mkStatus, dget?, projectIds_mk, hresp, filterIdsByAlgorithm_mk]

theorem get_trained_models_ids_spec_witness :
    get_trained_models_ids
        (MLClient.mk (mkStatus [("m1", "s1"), ("m2", "s2")]) (fun _ => JVal.null)
          (fun _ => JVal.obj (mkSnippets [("m1", "XGB"), ("m2", "RF")])))
        none none = Except.ok [JVal.str "m1", JVal.str "m2"] ∧
    get_trained_models_ids
        (MLClient.mk (mkStatus [("m1", "s1"), ("m2", "s2")]) (fun _ => JVal.null)
          (fun _ => JVal.obj (mkSnippets [("m1", "XGB"), ("m2", "RF")])))
        (some "s1") none = Except.ok [JVal.str "m1"] ∧
    get_trained_models_ids
        (MLClient.mk (mkStatus [("m1", "s1"), ("m2", "s2")]) (fun _ => JVal.null)
          (fun _ => JVal.obj (mkSnippets [("m1", "XGB"), ("m2", "RF")])))
        none (some "RF") = Except.ok [JVal.str "m2"] := by
  have h := get_trained_models_ids_spec
      (MLClient.mk (mkStatus [("m1", "s1"), ("m2", "s2")]) (fun _ => JVal.null)
        (fun _ => JVal.obj (mkSnippets [("m1", "XGB"), ("m2", "RF")])))
      [("m1", "s1"), ("m2", "s2")] rfl
  refine ⟨by simpa using h.1, ?_, ?_⟩
  · have h2 := h.2.1 "s1"
    simpa using h2
  · have h3 := h.2.2 "RF" [("m1", "XGB"), ("m2", "RF")] rfl
    simpa using h3

theorem waitLoop_none (field : String) (interval : ℚ) (statuses : Nat → Dict)
    (n : Nat)
    (htrue : ∀ i, i < n → dget? (statuses i) field = some (JVal.bool true)) :
    ∀ fuel start, start + fuel ≤ n →
      waitLoop field interval statuses fuel start = none := by
  intro fuel
  induction fuel with
  | zero => intro start h; rfl
  | succ fuel ih =>
    intro start h
    have hs : start < n := by omega
    simp only [waitLoop, htrue start hs, Option.getD_some, pyEqFalse,
      Bool.not_true, Bool.false_eq_true, if_false]
    exact ih (start + 1) (by omega)

theorem waitLoop_stops (field : String) (interval : ℚ) (statuses : Nat → Dict)
    (n : Nat)
    (htrue : ∀ i, i < n → dget? (statuses i) field = some (JVal.bool true))
    (hfalse : dget? (statuses n) field = some (JVal.bool false)) :
    ∀ fuel start, start ≤ n → n + 1 ≤ start + fuel →
      waitLoop field interval statuses fuel start =
        some (n + 1, interval * (n : ℚ)) := by
  intro fuel
  induction fuel with
  | zero => intro start h1 h2; omega
  | succ fuel ih =>
    intro start h1 h2
    by_cases hs : start = n
    · subst hs
      simp only [waitLoop, hfalse, Option.getD_some, pyEqFalse, Bool.not_false,
        if_true]
    · have hlt : start < n := by omega
      simp only [waitLoop, htrue start hlt, Option.getD_some, pyEqFalse,
        Bool.not_true, Bool.false_eq_true, if_false]
      exact ih (start + 1) (by omega) (by omega)

theorem waitLoop_diverges (field : String) (interval : ℚ) (statuses : Nat → Dict)
    (htrue : ∀ i, dget? (statuses i) field = some (JVal.bool true)) :
    ∀ fuel start, waitLoop field interval statuses fuel start = none := by
  intro fuel
  induction fuel with
  | zero => intro start; rfl
  | succ fuel ih =>
    intro start
    simp only [waitLoop, htrue start, Option.getD_some, pyEqFalse,
      Bool.not_true, Bool.false_eq_true, if_false]
    exact ih (start + 1)

/-- C7: for every status sequence reporting `training = true` up to index n
    and `training = false` at n, `wait_train_complete` has not returned
    within any fuel of at most n fetches and returns after exactly n + 1
    fetches (so at least two fetches for a true-then-false sequence),
    sleeping the fixed 2 seconds after each non-final fetch for a 2 * n
    total; while every fetched status reports `training = true` it never
    returns.  `wait_guess_complete` behaves identically over the field
    `guessing` with a 0.2 second interval. -/
theorem wait_complete_spec :
    (∀ statuses : Nat → Dict, ∀ n : Nat,
      (∀ i, i < n → dget? (statuses i) "training" = some (JVal.bool true)) →
      dget? (statuses n) "training" = some (JVal.bool false) →
      (∀ fuel, fuel ≤ n → wait_train_complete statuses fuel = none) ∧
      (∀ fuel, n + 1 ≤ fuel →
        wait_train_complete statuses fuel = some (n + 1, 2 * (n : ℚ)))) ∧
    (∀ statuses : Nat → Dict,
      (∀ i, dget? (statuses i) "training" = some (JVal.bool true)) →
      ∀ fuel, wait_train_complete statuses fuel = none) ∧
    (∀ statuses : Nat → Dict, ∀ n : Nat,
      (∀ i, i < n → dget? (statuses i) "guessing" = some (JVal.bool true)) →
      dget? (statuses n) "guessing" = some (JVal.bool false) →
      (∀ fuel, fuel ≤ n → wait_guess_complete statuses fuel = none) ∧
      (∀ fuel, n + 1 ≤ fuel →
        wait_guess_complete statuses fuel = some (n + 1, (1 / 5) * (n : ℚ)))) ∧
    (∀ statuses : Nat → Dict,
      (∀ i, dget? (statuses i) "guessing" = some (JVal.bool true)) →
      ∀ fuel, wait_guess_complete statuses fuel = none) := by
  refine ⟨?_, ?_, ?_, ?_⟩
  · intro statuses n htrue hfalse
    constructor
    · intro fuel hf
      exact waitLoop_none "training" 2 statuses n htrue fuel 0 (by omega)
    · intro fuel hf
      exact waitLoop_stops "training" 2 statuses n htrue hfalse fuel 0
        (by omega) (by omega)
  · intro statuses htrue fuel
    exact waitLoop_diverges "training" 2 statuses htrue fuel 0
  · intro statuses n htrue hfalse
    constructor
    · intro fuel hf
      exact waitLoop_none "guessing" (1 / 5) statuses n htrue fuel 0 (by omega)
    · intro fuel hf
      exact waitLoop_stops "guessing" (1 / 5) statuses n htrue hfalse fuel 0
        (by omega) (by omega)
  · intro statuses htrue fuel
    exact waitLoop_diverges "guessing" (1 / 5) statuses htrue fuel 0

theorem wait_complete_spec_witness :
    wait_train_complete (fun i => if i = 0 then [("training", JVal.bool true)]
      else [("training", JVal.bool false)]) 5 = some (2, 2) ∧
    wait_train_complete (fun i => if i = 0 then [("training", JVal.bool true)]
      else [("training", JVal.bool false)]) 1 = none ∧
    wait_guess_complete (fun _ => [("guessing", JVal.bool true)]) 3 = none := by
  have h := wait_complete_spec.1
      (fun i => if i = 0 then [("training", JVal.bool true)]
        else [("training", JVal.bool false)]) 1
      (by
        intro i hi
        have hi0 : i = 0 := by omega
        subst hi0
        rfl)
      rfl
  have hg := wait_complete_spec.2.2.2 (fun _ => [("guessing", JVal.bool true)])
      (fun i => rfl) 3
  refine ⟨?_, h.1 1 (by omega), hg⟩
  have h2 := h.2 5 (by omega)
  simpa using h2

end Dataiku
